import Mathlib

/-!
Verification of the dprint plugin cache manager (`src/format/mod.ts`):
the lock-file store (`_getLockObject`, `writeLockFile`), the
load/verify/fetch protocol (`DprintPluginManager.loadFormatterFromUrl`),
the cache garbage collector (`cleanCacheDir`) and the artifact-name
derivation (`_urlToFileName`).

Modelling conventions:

* JSON documents are modelled at the value level by the inductive `Json`.
  The platform codec (`JSON.parse` / `JSON.stringify`) is an external
  collaborator; a file's contents are therefore represented by the parsed
  value (`Option Json`, `none` standing for text that is not valid JSON,
  i.e. a `SyntaxError` from `JSON.parse`).
* JavaScript objects are association lists in insertion order
  (`List (String × Json)`); property read, write and `delete` are
  `lookupKV`, `insertKV` and `eraseKV`, with JS update-in-place semantics.
* `Deno` filesystem and `fetch` operations are an explicit environment
  (`Env`); the I/O a call performs is recorded in an `Effect` trace.
* Bytes are `List Nat`; the sha512 of `createHash("sha512")` is an
  external collaborator, passed in as an arbitrary function
  `hashFn : List Nat → String` (the code only compares its outputs).
* The opaque dprint `Formatter` produced by `createFromBuffer` is
  modelled as the byte buffer it was decoded from.
-/

namespace Dprint

/-- JSON values as produced by the platform `JSON.parse`.  Object fields
are kept as an insertion-ordered association list, matching JavaScript
object semantics. -/
inductive Json where
  | null
  | bool (b : Bool)
  | num (n : Int)
  | str (s : String)
  | arr (elems : List Json)
  | obj (fields : List (String × Json))

/-- JS property read `m[key]` on an object: first binding wins (parsed
objects have unique keys); `none` models `undefined`. -/
def lookupKV {α : Type} : List (String × α) → String → Option α
  | [], _ => none
  | (k, v) :: rest, key => if k == key then some v else lookupKV rest key

/-- JS property write `m[key] = v`: updates an existing binding in place
(keeping its position, as JS objects do) or appends a new one. -/
def insertKV {α : Type} : List (String × α) → String → α → List (String × α)
  | [], key, v => [(key, v)]
  | (k, w) :: rest, key, v =>
      if k == key then (key, v) :: rest else (k, w) :: insertKV rest key v

/-- JS `delete m[key]`: removes the binding for `key`, if any. -/
def eraseKV {α : Type} : List (String × α) → String → List (String × α)
  | [], _ => []
  | (k, w) :: rest, key => if k == key then rest else (k, w) :: eraseKV rest key

/-- `Object.entries(x)` of mod.ts line 229.  `none` models the
`TypeError` thrown on `null`; numbers and booleans have no own
properties; strings enumerate their characters; arrays their elements,
keyed by decimal indices. -/
def jsEntries : Json → Option (List (String × Json))
  | Json.null => none
  | Json.obj fields => some fields
  | Json.arr elems => some (List.zip ((List.range elems.length).map toString) elems)
  | Json.str s => some (List.zip ((List.range s.data.length).map toString)
      (s.data.map (fun c => Json.str (String.mk [c]))))
  | Json.num _ => some []
  | Json.bool _ => some []

/-- The data extracted by a successful `_isLockObjectEntry` check
(typanion `t.isObject({fileName: t.isString(), sha512: t.isString()})`,
mod.ts lines 219-222): the value must be a plain object whose `fileName`
and `sha512` properties are strings, with no extraneous properties
(typanion's `isObject` rejects extra keys when no `extra` validator is
given).  Returns the two strings on success. -/
def entryData : Json → Option (String × String)
  | Json.obj fields =>
      match lookupKV fields "fileName", lookupKV fields "sha512" with
      | some (Json.str fn), some (Json.str h) =>
          if fields.all (fun kv => kv.1 == "fileName" || kv.1 == "sha512")
          then some (fn, h) else none
      | _, _ => none
  | _ => none

/-- `_isLockObjectEntry` (mod.ts lines 219-222) as a boolean predicate;
on `undefined`-free `Json` inputs.  Non-objects fail typanion's
`typeof value === "object" && value !== null` check. -/
def _isLockObjectEntry (j : Json) : Bool := (entryData j).isSome

/-- `_isValidLockObject` (mod.ts lines 228-236): every value of
`Object.entries(lockObject)` must pass `_isLockObjectEntry`.  `none`
models the `TypeError` that `Object.entries(null)` throws. -/
def _isValidLockObject (j : Json) : Option Bool :=
  match jsEntries j with
  | none => none
  | some entries => some (entries.all (fun kv => _isLockObjectEntry kv.2))

/-- Errors that the embedded code can raise. -/
inductive JsError where
  | notFoundErr
  | permissionErr
  | parseErr
  | entriesTypeErr
  | lockFileParseErr
  | fetchErr
  | catalogErr
  | artifactReadErr
  deriving Repr, DecidableEq

/-- Outcome of `Deno.readFile` + `TextDecoder` + `JSON.parse` on the lock
file path (mod.ts lines 242-245), i.e. the input `_getLockObject`
branches on: the file is absent (`Deno.errors.NotFound`), some other
filesystem failure occurred (e.g. a permission error), or the file was
read and `JSON.parse` either failed (`content none`) or produced the
value `j` (`content (some j)`). -/
inductive ReadResult where
  | notFound
  | ioFailure
  | content (doc : Option Json)

/-- The body of the `try` block of `_getLockObject` (mod.ts lines
241-251): read and decode the file, parse it, and throw
`LockFileParseError` when `_isValidLockObject` rejects it. -/
def _readAndValidate : ReadResult → Except JsError Json
  | ReadResult.notFound => Except.error JsError.notFoundErr
  | ReadResult.ioFailure => Except.error JsError.permissionErr
  | ReadResult.content none => Except.error JsError.parseErr
  | ReadResult.content (some j) =>
      match _isValidLockObject j with
      | none => Except.error JsError.entriesTypeErr
      | some true => Except.ok j
      | some false => Except.error JsError.lockFileParseErr

/-- `_getLockObject` (mod.ts lines 238-263): the `catch` block returns a
fresh empty lock object `{}` for every error raised in the `try` block
(the `instanceof` test only selects which errors are logged; the comment
in the source reads "Start a new lock file from scratch upon
encountering any error"). -/
def _getLockObject (r : ReadResult) : Except JsError Json :=
  match _readAndValidate r with
  | Except.ok j => Except.ok j
  | Except.error _ => Except.ok (Json.obj [])

/-- A lock-file entry as produced by a successful fetch (mod.ts lines
382-385). -/
structure LockEntry where
  fileName : String
  sha512 : String
  deriving Repr, DecidableEq

/-- The JSON object a `LockEntry` is stored as. -/
def lockEntryJson (fn hash : String) : Json :=
  Json.obj [("fileName", Json.str fn), ("sha512", Json.str hash)]

/-- The lock-object fields corresponding to a typed manifest. -/
def manifestEntriesJson (M : List (String × LockEntry)) : List (String × Json) :=
  M.map (fun kv => (kv.1, lockEntryJson kv.2.fileName kv.2.sha512))

/-- `DprintPluginManager.writeLockFile` (mod.ts lines 423-432), at the
JSON-value level: the document written to disk is
`JSON.stringify(lockObject, undefined, 4)`, optionally re-rendered by
the caller-supplied JSON formatter.  A JSON formatter only reformats the
serialized text, so at the value level it is a map `Json → Json`; with
no renderer the document is the lock object itself. -/
def writeLockFile (render : Option (Json → Json)) (lockObject : List (String × Json)) :
    Json :=
  match render with
  | none => Json.obj lockObject
  | some r => r (Json.obj lockObject)

/-- Read a lock-object field list back into a typed manifest; succeeds
exactly on the shape `manifestEntriesJson` produces. -/
def jsonEntriesToManifest : List (String × Json) → Option (List (String × LockEntry))
  | [] => some []
  | (k, v) :: rest =>
      match v with
      | Json.obj [("fileName", Json.str fn), ("sha512", Json.str h)] =>
          match jsonEntriesToManifest rest with
          | some tail => some ((k, ⟨fn, h⟩) :: tail)
          | none => none
      | _ => none

/-- Read a JSON document back into a typed manifest. -/
def jsonToManifest : Json → Option (List (String × LockEntry))
  | Json.obj fields => jsonEntriesToManifest fields
  | _ => none

/-- The fixed name of the manifest file (mod.ts line 217). -/
def LOCK_FILE_NAME : String := "plugin-lock.json"

/-- `posix.basename`: strip trailing slashes, then keep the part after
the last remaining slash (`"/"` when the path is all slashes, `""` for
the empty path). -/
def basename (s : String) : String :=
  let cs := s.data
  let trimmed := List.reverse (List.dropWhile (fun c => c == '/') (List.reverse cs))
  if trimmed.isEmpty then
    if cs.isEmpty then "" else "/"
  else
    String.mk (List.reverse (List.takeWhile (fun c => !(c == '/')) (List.reverse trimmed)))

/-- Scan forward to the character just after the `://` scheme separator
of a URL; `none` when there is no such separator. -/
def dropSchemeSep : List Char → Option (List Char)
  | [] => none
  | ':' :: '/' :: '/' :: rest => some rest
  | _ :: rest => dropSchemeSep rest

/-- The `pathname` of `new URL(url)` for the well-formed absolute
`http(s)` URLs the tool consumes: everything from the first slash after
the authority up to (excluding) the query string or fragment, defaulting
to `"/"` when the authority is followed by no path. -/
def urlPathname (url : String) : String :=
  match dropSchemeSep url.data with
  | none => ""
  | some afterScheme =>
      let afterHost := List.dropWhile
          (fun c => !(c == '/') && !(c == '?') && !(c == '#')) afterScheme
      match afterHost with
      | '/' :: _ => String.mk (List.takeWhile (fun c => !(c == '?') && !(c == '#')) afterHost)
      | _ => "/"

/-- `_urlToFileName` (mod.ts lines 265-269):
`posix.basename(new URL(url).pathname)`. -/
def _urlToFileName (url : String) : String := basename (urlPathname url)

/-- `DprintPluginManager._resolve` (mod.ts lines 319-321): the cache-dir
path of a cache-relative file name. -/
def _resolve (cacheDir : String) (fileName : String) : String :=
  cacheDir ++ "/" ++ fileName

/-- The opaque dprint Formatter capability; `createFromBuffer` decodes a
byte buffer into one.  Modelled as the decoded bytes. -/
abbrev Formatter : Type := List Nat

/-- `createFromBuffer` from the dprint formatter host (external
collaborator). -/
def createFromBuffer (buffer : List Nat) : Formatter := buffer

/-- State of one file in the cache directory: absent
(`Deno.errors.NotFound` on read), present with contents, or failing to
read with some other filesystem error (e.g. a permission error). -/
inductive FileState where
  | absent
  | present (bytes : List Nat)
  | unreadable
  deriving Repr, DecidableEq

/-- Outcome of `fetch(url)`: the promise rejects (network error), or a
response arrives with a success flag (`Response.ok`) and body bytes. -/
inductive FetchOutcome where
  | networkError
  | response (ok : Bool) (body : List Nat)

/-- The external world a resolution runs against: the cache-directory
files and the network. -/
structure Env where
  files : List (String × FileState)
  net : String → FetchOutcome

/-- `Deno.readFile` against the modelled cache directory. -/
def readFileFs (env : Env) (path : String) : FileState :=
  match lookupKV env.files path with
  | some fs => fs
  | none => FileState.absent

/-- The mutable state of a `DprintPluginManager` (mod.ts lines 302-317):
the cache directory, the lock object loaded at construction, and the
in-memory `#formatters` map keyed by URL. -/
structure ManagerState where
  cacheDir : String
  lockObject : List (String × Json)
  formatters : List (String × Formatter)

/-- One observable I/O action (or warning) performed by
`loadFormatterFromUrl`. -/
inductive Effect where
  | readFile (path : String)
  | fetched (url : String)
  | decoded (bytes : List Nat)
  | madeDir (dir : String)
  | wroteFile (path : String) (bytes : List Nat)
  | warned (fileName : String)
  deriving Repr, DecidableEq

/-- Is this effect a network fetch? -/
def Effect.isFetched : Effect → Bool
  | Effect.fetched _ => true
  | _ => false

/-- Is this effect a `createFromBuffer` decode? -/
def Effect.isDecoded : Effect → Bool
  | Effect.decoded _ => true
  | _ => false

/-- The result of a successful `loadFormatterFromUrl` call: the returned
formatter, the manager state and environment afterwards, and the trace
of I/O the call performed. -/
structure LoadOutcome where
  formatter : Formatter
  state : ManagerState
  env : Env
  trace : List Effect

/-- The tail of `loadFormatterFromUrl` (mod.ts lines 373-389): fetch the
URL, decode the body into a formatter (the code never inspects
`response.ok` — see the `TODO` on line 376), record it in `#formatters`,
write the lock entry `{fileName, sha512: _hashSha512(buffer)}`, make the
cache directory and write the bytes to `fileName` inside it.  `pre` is
the trace accumulated before falling through to the fetch. -/
def fetchAndStore (hashFn : List Nat → String) (env : Env) (st : ManagerState)
    (url : String) (fileName : String) (pre : List Effect) :
    Except JsError LoadOutcome :=
  match env.net url with
  | FetchOutcome.networkError => Except.error JsError.fetchErr
  | FetchOutcome.response _ body =>
      let formatter := createFromBuffer body
      let path := _resolve st.cacheDir fileName
      Except.ok
        { formatter := formatter
          state :=
            { st with
              formatters := insertKV st.formatters url formatter
              lockObject := insertKV st.lockObject url
                  (lockEntryJson fileName (hashFn body)) }
          env := { env with files := insertKV env.files path (FileState.present body) }
          trace := pre ++ [Effect.fetched url, Effect.decoded body,
              Effect.madeDir st.cacheDir, Effect.wroteFile path body] }

/-- The `try`/`catch` around the artifact read (mod.ts lines 340-371),
dispatching on the outcome of `Deno.readFile` on the file named by the
lock entry: on a successful read, compare `_hashSha512(buffer)` with the
recorded `sha512` — decode, record and return the formatter on a match,
warn and fall through to the fetch on a mismatch; on
`Deno.errors.NotFound`, delete the lock entry and fall through to the
fetch; rethrow any other read error. -/
def readAndVerify (hashFn : List Nat → String) (env : Env) (st : ManagerState)
    (url : String) (fileName : String) (fn : String) (cachedHash : String)
    (fs : FileState) : Except JsError LoadOutcome :=
  match fs with
  | FileState.present buffer =>
      if hashFn buffer == cachedHash then
        Except.ok
          { formatter := createFromBuffer buffer
            state := { st with
              formatters := insertKV st.formatters url (createFromBuffer buffer) }
            env := env
            trace := [Effect.readFile (_resolve st.cacheDir fn)] }
      else
        fetchAndStore hashFn env st url fileName
          [Effect.readFile (_resolve st.cacheDir fn), Effect.warned fn]
  | FileState.absent =>
      fetchAndStore hashFn env
        { st with lockObject := eraseKV st.lockObject url } url fileName
        [Effect.readFile (_resolve st.cacheDir fn)]
  | FileState.unreadable => Except.error JsError.artifactReadErr

/-- The `if (_isLockObjectEntry(lockObjectEntry))` dispatch (mod.ts
lines 336-371): with a valid lock entry, read and verify the file it
names; otherwise go straight to the fetch. -/
def consultLock (hashFn : List Nat → String) (env : Env) (st : ManagerState)
    (url : String) (fileName : String) (entry : Option (String × String)) :
    Except JsError LoadOutcome :=
  match entry with
  | some (fn, cachedHash) =>
      readAndVerify hashFn env st url fileName fn cachedHash
        (readFileFs env (_resolve st.cacheDir fn))
  | none => fetchAndStore hashFn env st url fileName []

/-- `DprintPluginManager.loadFormatterFromUrl` (mod.ts lines 323-390):
return the in-memory formatter when one exists (no I/O); otherwise
derive the artifact name from the URL and consult the lock object. -/
def loadFormatterFromUrl (hashFn : List Nat → String) (env : Env) (st : ManagerState)
    (url : String) : Except JsError LoadOutcome :=
  match lookupKV st.formatters url with
  | some f => Except.ok { formatter := f, state := st, env := env, trace := [] }
  | none =>
      consultLock hashFn env st url (_urlToFileName url)
        (Option.bind (lookupKV st.lockObject url) entryData)

/-- The `fileName` property read `entry.fileName` performed by
`cleanCacheDir` on each lock-object value; only string values can ever
equal the `basename` of a directory entry, so non-string values are
dropped. -/
def entryFileNameStr : Json → Option String
  | Json.obj fields =>
      match lookupKV fields "fileName" with
      | some (Json.str s) => some s
      | _ => none
  | _ => none

/-- `DprintPluginManager.cleanCacheDir` (mod.ts lines 399-416): build the
retain-set (the lock file name unless `removeLockFile`, plus every
entry's `fileName`), then delete every directory entry whose `basename`
is not in it.  `dirEntries` are the names `Deno.readDir` yields; the
value is the list of entries remaining in the directory afterwards. -/
def cleanCacheDir (removeLockFile : Bool) (lockObject : List (String × Json))
    (dirEntries : List String) : List String :=
  let filesToKeep := (if removeLockFile then [] else [LOCK_FILE_NAME]) ++
      lockObject.filterMap (fun kv => entryFileNameStr kv.2)
  dirEntries.filter (fun name => decide (basename name ∈ filesToKeep))

/-- The catalog list-fetch of `getFormatters` (mod.ts lines 23-32): a
network failure rejects, and a non-success response throws
`Failed to load list of formatters`; the body is consumed only when
`response.ok` holds. -/
def catalogFetchCheck (resp : FetchOutcome) : Except JsError (List Nat) :=
  match resp with
  | FetchOutcome.networkError => Except.error JsError.fetchErr
  | FetchOutcome.response ok body =>
      if ok then Except.ok body else Except.error JsError.catalogErr

/-- A document is malformed when its text is not valid JSON
(`doc = none`) or the parsed value is rejected by the lock-file schema
check (`_isValidLockObject` does not return `true`, covering entries
that are not objects, non-string or missing `fileName`/`sha512` fields,
extraneous fields, and the `Object.entries(null)` failure). -/
def docMalformed (doc : Option Json) : Prop :=
  doc = none ∨ ∃ j, doc = some j ∧ _isValidLockObject j ≠ some true

/-- Fixtures for concrete evaluations: a stand-in for the external
sha512 (the code only compares its outputs for equality). -/
def testHash (bytes : List Nat) : String :=
  toString (bytes.foldl (fun a b => a * 31 + b + 1) 0)

/-- Fixture: a plugin URL whose derived artifact name is `p.wasm`. -/
def demoUrl : String := "https://h/p.wasm"

/-- Fixture for C4: a manager whose lock object names a stale artifact
`old.wasm` for `demoUrl`. -/
def c4St : ManagerState :=
  { cacheDir := "c"
    lockObject := [(demoUrl, lockEntryJson "old.wasm" "deadbeef")]
    formatters := [] }

/-- Fixture for C4: an empty cache directory (so `old.wasm` is absent)
and a network serving bytes `[5]` for every URL. -/
def c4Env : Env :=
  { files := [], net := fun _ => FetchOutcome.response true [5] }

/-- Fixture for C5: a manager whose lock object records hash `"999"` for
the artifact `p.wasm` of `demoUrl`. -/
def c5St : ManagerState :=
  { cacheDir := "c"
    lockObject := [(demoUrl, lockEntryJson "p.wasm" "999")]
    formatters := [] }

/-- Fixture for C5: the cached `p.wasm` holds corrupted bytes `[3]`
(whose `testHash` is `"4"`, not the recorded `"999"`); the network
serves fresh bytes `[5]`. -/
def c5Env : Env :=
  { files := [(_resolve "c" "p.wasm", FileState.present [3])]
    net := fun _ => FetchOutcome.response true [5] }

/-- Fixture for C6/C7: a manager whose lock object records the correct
`testHash` of bytes `[3]` for the artifact `p.wasm` of `demoUrl`. -/
def c7St : ManagerState :=
  { cacheDir := "c"
    lockObject := [(demoUrl, lockEntryJson "p.wasm" (testHash [3]))]
    formatters := [] }

/-- Fixture for C6/C7: the cached `p.wasm` holds the intact bytes `[3]`. -/
def c7Env : Env :=
  { files := [(_resolve "c" "p.wasm", FileState.present [3])]
    net := fun _ => FetchOutcome.response true [5] }

/-- Fixture for C6: the outcome of the first `loadFormatterFromUrl` call
on the C7 fixture (a verified cache hit). -/
def c6Out : LoadOutcome :=
  { formatter := createFromBuffer [3]
    state := { c7St with formatters := insertKV c7St.formatters demoUrl (createFromBuffer [3]) }
    env := c7Env
    trace := [Effect.readFile (_resolve "c" "p.wasm")] }

/-- Fixture for C9: the network answers every URL with a non-success
(`ok = false`) response whose body is `[9, 9]` (e.g. a 404 page). -/
def c9Env : Env :=
  { files := [], net := fun _ => FetchOutcome.response false [9, 9] }

/-- Fixture for C9: the network rejects every fetch. -/
def c9EnvErr : Env :=
  { files := [], net := fun _ => FetchOutcome.networkError }

/-- Fixture for C9: a fresh manager (no lock entry, no formatter). -/
def c9St : ManagerState := { cacheDir := "c", lockObject := [], formatters := [] }

/-- Fixture for C10: two distinct plugin URLs whose pathnames share the
base name `plugin.wasm`. -/
def urlA : String := "https://a.example/one/plugin.wasm"

/-- Fixture for C10: see `urlA`; differs in host, directory and query
string. -/
def urlB : String := "https://b.example/two/plugin.wasm?v=2"

/-- Fixture for C10: the network serves bytes `[1]` for `urlA` and
bytes `[2]` for every other URL (in particular `urlB`). -/
def c10Env : Env :=
  { files := []
    net := fun u => if u == urlA then FetchOutcome.response true [1]
        else FetchOutcome.response true [2] }

/-- Fixture for C10: a fresh manager. -/
def c10St : ManagerState := { cacheDir := "c", lockObject := [], formatters := [] }

-- Helper lemmas -------------------------------------------------------

theorem lookupKV_insertKV_self {α : Type} (m : List (String × α)) (k : String) (v : α) :
    lookupKV (insertKV m k v) k = some v := by
  induction m with
  | nil => simp [insertKV, lookupKV]
  | cons kv rest ih =>
      obtain ⟨k', w⟩ := kv
      by_cases h : (k' == k) = true
      · simp [insertKV, lookupKV, h]
      · simp only [insertKV, lookupKV, h, Bool.false_eq_true, if_false]
        exact ih

theorem entryData_lockEntryJson (fn hash : String) :
    entryData (lockEntryJson fn hash) = some (fn, hash) := rfl

theorem jsonToManifest_manifestEntriesJson (M : List (String × LockEntry)) :
    jsonToManifest (Json.obj (manifestEntriesJson M)) = some M := by
  induction M with
  | nil => rfl
  | cons kv rest ih =>
      obtain ⟨k, e⟩ := kv
      obtain ⟨fn, h⟩ := e
      show jsonEntriesToManifest
          ((k, lockEntryJson fn h) :: manifestEntriesJson rest) = _
      show (match jsonEntriesToManifest (manifestEntriesJson rest) with
            | some tail => some ((k, (⟨fn, h⟩ : LockEntry)) :: tail)
            | none => none) = _
      have ih' : jsonEntriesToManifest (manifestEntriesJson rest) = some rest := ih
      rw [ih']

theorem manifestEntriesJson_valid (M : List (String × LockEntry)) :
    _isValidLockObject (Json.obj (manifestEntriesJson M)) = some true := by
  have h1 : _isValidLockObject (Json.obj (manifestEntriesJson M)) =
      some ((manifestEntriesJson M).all (fun kv => _isLockObjectEntry kv.2)) := rfl
  rw [h1]
  congr 1
  rw [List.all_eq_true]
  intro kv hkv
  obtain ⟨⟨k, e⟩, _hmem, hkv'⟩ := List.mem_map.mp hkv
  rw [← hkv']
  simp [_isLockObjectEntry, entryData_lockEntryJson]

theorem fetchAndStore_registers (hashFn : List Nat → String) (env : Env)
    (st : ManagerState) (url : String) (fileName : String) (pre : List Effect)
    (out : LoadOutcome)
    (h : fetchAndStore hashFn env st url fileName pre = Except.ok out) :
    lookupKV out.state.formatters url = some out.formatter := by
  unfold fetchAndStore at h
  cases hnet : env.net url with
  | networkError => rw [hnet] at h; exact absurd h (by simp)
  | response ok body =>
      rw [hnet] at h
      injection h with h2
      subst h2
      exact lookupKV_insertKV_self st.formatters url (createFromBuffer body)

theorem readAndVerify_registers (hashFn : List Nat → String) (env : Env)
    (st : ManagerState) (url : String) (fileName : String) (fn : String)
    (cachedHash : String) (fs : FileState) (out : LoadOutcome)
    (h : readAndVerify hashFn env st url fileName fn cachedHash fs = Except.ok out) :
    lookupKV out.state.formatters url = some out.formatter := by
  unfold readAndVerify at h
  split at h
  next buffer =>
      split at h
      next hh =>
          injection h with h2
          subst h2
          exact lookupKV_insertKV_self st.formatters url (createFromBuffer buffer)
      next hh => exact fetchAndStore_registers _ _ _ _ _ _ _ h
  next => exact fetchAndStore_registers _ _ _ _ _ _ _ h
  next => exact absurd h (by simp)

theorem consultLock_registers (hashFn : List Nat → String) (env : Env)
    (st : ManagerState) (url : String) (fileName : String)
    (entry : Option (String × String)) (out : LoadOutcome)
    (h : consultLock hashFn env st url fileName entry = Except.ok out) :
    lookupKV out.state.formatters url = some out.formatter := by
  unfold consultLock at h
  cases entry with
  | none => exact fetchAndStore_registers _ _ _ _ _ _ _ h
  | some p =>
      obtain ⟨fn, cachedHash⟩ := p
      exact readAndVerify_registers _ _ _ _ _ _ _ _ _ h

theorem loadFormatterFromUrl_registers (hashFn : List Nat → String) (env : Env)
    (st : ManagerState) (url : String) (out : LoadOutcome)
    (h : loadFormatterFromUrl hashFn env st url = Except.ok out) :
    lookupKV out.state.formatters url = some out.formatter := by
  unfold loadFormatterFromUrl at h
  cases hf : lookupKV st.formatters url with
  | some f =>
      rw [hf] at h
      injection h with h2
      subst h2
      exact hf
  | none =>
      rw [hf] at h
      exact consultLock_registers _ _ _ _ _ _ _ h

-- Claim theorems ------------------------------------------------------

/-- C1: For every manifest `M` whose entries were produced by successful
fetches (each value an object with a string `fileName` and a string
`sha512`), persisting `M` with `writeLockFile` — with no renderer, or
with any renderer that (like a JSON formatter) only reformats the
serialized text and hence preserves the JSON value — and loading the
written document with `_getLockObject` yields a manifest with exactly
the same key/value pairs as `M`. -/
theorem claim1_persist_load_roundtrip (M : List (String × LockEntry))
    (render : Option (Json → Json))
    (hrender : ∀ r, render = some r →
        r (Json.obj (manifestEntriesJson M)) = Json.obj (manifestEntriesJson M)) :
    _getLockObject (ReadResult.content (some (writeLockFile render (manifestEntriesJson M))))
        = Except.ok (Json.obj (manifestEntriesJson M))
    ∧ jsonToManifest (Json.obj (manifestEntriesJson M)) = some M := by
  have hw : writeLockFile render (manifestEntriesJson M)
      = Json.obj (manifestEntriesJson M) := by
    cases render with
    | none => rfl
    | some r => exact hrender r rfl
  constructor
  · rw [hw]
    simp [_getLockObject, _readAndValidate, manifestEntriesJson_valid M]
  · exact jsonToManifest_manifestEntriesJson M

/-- C1 witness: the round trip evaluated on a concrete one-entry
manifest, persisted without a renderer. -/
theorem claim1_witness :
    _getLockObject (ReadResult.content (some (writeLockFile none
        (manifestEntriesJson [("https://x/y.wasm", ⟨"y.wasm", "abc"⟩)]))))
      = Except.ok (Json.obj (manifestEntriesJson [("https://x/y.wasm", ⟨"y.wasm", "abc"⟩)]))
    ∧ jsonToManifest (Json.obj (manifestEntriesJson [("https://x/y.wasm", ⟨"y.wasm", "abc"⟩)]))
      = some [("https://x/y.wasm", ⟨"y.wasm", "abc"⟩)] :=
  claim1_persist_load_roundtrip [("https://x/y.wasm", ⟨"y.wasm", "abc"⟩)] none
    (fun _ h => Option.noConfusion h)

/-- C2: For every malformed manifest document — text that is not valid
JSON, or a parsed value rejected by the schema check (an entry that is
not an object with a string `fileName` and a string `sha512`, wrong
field types, extra or missing required fields) — `_getLockObject`
returns the empty manifest `{}` and raises no error past its boundary
(the result is `Except.ok`). -/
theorem claim2_malformed_load_empty (doc : Option Json) (h : docMalformed doc) :
    _getLockObject (ReadResult.content doc) = Except.ok (Json.obj []) := by
  rcases h with hnone | ⟨j, hj, hbad⟩
  · rw [hnone]; rfl
  · rw [hj]
    cases hv : _isValidLockObject j with
    | none => simp [_getLockObject, _readAndValidate, hv]
    | some b =>
        cases b with
        | false => simp [_getLockObject, _readAndValidate, hv]
        | true => exact absurd hv hbad

/-- C2 witness: a document whose single entry is a bare string fails the
schema check, and loading it yields the empty manifest. -/
theorem claim2_witness :
    docMalformed (some (Json.obj [("u", Json.str "x")]))
    ∧ _getLockObject (ReadResult.content (some (Json.obj [("u", Json.str "x")])))
        = Except.ok (Json.obj []) :=
  ⟨Or.inr ⟨Json.obj [("u", Json.str "x")], rfl, by decide⟩,
   claim2_malformed_load_empty (some (Json.obj [("u", Json.str "x")]))
     (Or.inr ⟨Json.obj [("u", Json.str "x")], rfl, by decide⟩)⟩

/-- C3 counterexample: on a filesystem failure that is neither
file-not-found, a parse failure, nor a schema-validation failure (e.g. a
permission error), `_getLockObject` does not propagate the error — its
catch-all `catch` returns the empty manifest `{}`, so the result is
`Except.ok`, not `Except.error`. -/
theorem claim3_counterexample :
    _getLockObject ReadResult.ioFailure = Except.ok (Json.obj []) := rfl

/-- C4: For a URL with a valid lock entry whose named artifact file is
absent from the cache directory and no in-memory formatter,
`loadFormatterFromUrl` drops the stale entry (`eraseKV`), performs
exactly one fetch of that URL, and leaves a lock entry for the URL whose
`fileName` is the derived `_urlToFileName url` and whose `sha512` is the
hash of the bytes written to that cache file (the fetched body). -/
theorem claim4_missing_artifact_refetch (hashFn : List Nat → String) (env : Env)
    (st : ManagerState) (url : String) (e : Json) (fn cachedHash : String)
    (ok : Bool) (body : List Nat)
    (hform : lookupKV st.formatters url = none)
    (hlock : lookupKV st.lockObject url = some e)
    (hdata : entryData e = some (fn, cachedHash))
    (hfile : readFileFs env (_resolve st.cacheDir fn) = FileState.absent)
    (hnet : env.net url = FetchOutcome.response ok body) :
    loadFormatterFromUrl hashFn env st url = Except.ok
      { formatter := createFromBuffer body
        state := { st with
          formatters := insertKV st.formatters url (createFromBuffer body)
          lockObject := insertKV (eraseKV st.lockObject url) url
              (lockEntryJson (_urlToFileName url) (hashFn body)) }
        env := { env with
          files := insertKV env.files (_resolve st.cacheDir (_urlToFileName url))
              (FileState.present body) }
        trace := [Effect.readFile (_resolve st.cacheDir fn), Effect.fetched url,
            Effect.decoded body, Effect.madeDir st.cacheDir,
            Effect.wroteFile (_resolve st.cacheDir (_urlToFileName url)) body] }
    ∧ lookupKV (insertKV (eraseKV st.lockObject url) url
          (lockEntryJson (_urlToFileName url) (hashFn body))) url
        = some (lockEntryJson (_urlToFileName url) (hashFn body))
    ∧ List.filter Effect.isFetched
        [Effect.readFile (_resolve st.cacheDir fn), Effect.fetched url,
         Effect.decoded body, Effect.madeDir st.cacheDir,
         Effect.wroteFile (_resolve st.cacheDir (_urlToFileName url)) body]
      = [Effect.fetched url] := by
  refine ⟨?_, lookupKV_insertKV_self _ _ _, ?_⟩
  · simp only [loadFormatterFromUrl, hform, hlock, Option.bind, hdata, consultLock,
      hfile, readAndVerify, fetchAndStore, hnet, List.cons_append, List.nil_append]
  · simp [Effect.isFetched, List.filter]

/-- C4 witness: the refetch evaluated on the concrete C4 fixture (stale
entry `old.wasm`, empty cache directory, network body `[5]`). -/
theorem claim4_witness :
    lookupKV c4St.formatters demoUrl = none
    ∧ lookupKV (insertKV (eraseKV c4St.lockObject demoUrl) demoUrl
          (lockEntryJson (_urlToFileName demoUrl) (testHash [5]))) demoUrl
        = some (lockEntryJson (_urlToFileName demoUrl) (testHash [5])) :=
  ⟨rfl, (claim4_missing_artifact_refetch testHash c4Env c4St demoUrl
      (lockEntryJson "old.wasm" "deadbeef") "old.wasm" "deadbeef" true [5]
      rfl rfl rfl rfl rfl).2.1⟩

/-- C5: For a URL with a valid lock entry whose named artifact exists
but hashes to a value different from the recorded `sha512`,
`loadFormatterFromUrl` emits a (non-fatal) checksum-mismatch warning,
decodes only the freshly fetched body — never the stale bytes —
refetches from the remote source, and the resulting lock entry's
`sha512` is the hash of the newly fetched content. -/
theorem claim5_mismatch_refetch (hashFn : List Nat → String) (env : Env)
    (st : ManagerState) (url : String) (e : Json) (fn cachedHash : String)
    (staleBuf : List Nat) (ok : Bool) (body : List Nat)
    (hform : lookupKV st.formatters url = none)
    (hlock : lookupKV st.lockObject url = some e)
    (hdata : entryData e = some (fn, cachedHash))
    (hfile : readFileFs env (_resolve st.cacheDir fn) = FileState.present staleBuf)
    (hmismatch : (hashFn staleBuf == cachedHash) = false)
    (hnet : env.net url = FetchOutcome.response ok body) :
    loadFormatterFromUrl hashFn env st url = Except.ok
      { formatter := createFromBuffer body
        state := { st with
          formatters := insertKV st.formatters url (createFromBuffer body)
          lockObject := insertKV st.lockObject url
              (lockEntryJson (_urlToFileName url) (hashFn body)) }
        env := { env with
          files := insertKV env.files (_resolve st.cacheDir (_urlToFileName url))
              (FileState.present body) }
        trace := [Effect.readFile (_resolve st.cacheDir fn), Effect.warned fn,
            Effect.fetched url, Effect.decoded body, Effect.madeDir st.cacheDir,
            Effect.wroteFile (_resolve st.cacheDir (_urlToFileName url)) body] }
    ∧ Effect.warned fn ∈
        [Effect.readFile (_resolve st.cacheDir fn), Effect.warned fn,
         Effect.fetched url, Effect.decoded body, Effect.madeDir st.cacheDir,
         Effect.wroteFile (_resolve st.cacheDir (_urlToFileName url)) body]
    ∧ List.filter Effect.isDecoded
        [Effect.readFile (_resolve st.cacheDir fn), Effect.warned fn,
         Effect.fetched url, Effect.decoded body, Effect.madeDir st.cacheDir,
         Effect.wroteFile (_resolve st.cacheDir (_urlToFileName url)) body]
      = [Effect.decoded body]
    ∧ lookupKV (insertKV st.lockObject url
          (lockEntryJson (_urlToFileName url) (hashFn body))) url
        = some (lockEntryJson (_urlToFileName url) (hashFn body)) := by
  refine ⟨?_, by simp, ?_, lookupKV_insertKV_self _ _ _⟩
  · simp only [loadFormatterFromUrl, hform, hlock, Option.bind, hdata, consultLock,
      hfile, readAndVerify, hmismatch, Bool.false_eq_true, if_false,
      fetchAndStore, hnet, List.cons_append, List.nil_append]
  · simp [Effect.isDecoded, List.filter]

/-- C5 witness: the mismatch path evaluated on the concrete C5 fixture
(recorded hash `"999"`, on-disk bytes `[3]` hashing to `"4"`, network
body `[5]`). -/
theorem claim5_witness :
    (testHash [3] == ("999" : String)) = false
    ∧ lookupKV (insertKV c5St.lockObject demoUrl
          (lockEntryJson (_urlToFileName demoUrl) (testHash [5]))) demoUrl
        = some (lockEntryJson (_urlToFileName demoUrl) (testHash [5])) :=
  ⟨rfl, (claim5_mismatch_refetch testHash c5Env c5St demoUrl
      (lockEntryJson "p.wasm" "999") "p.wasm" "999" [3] true [5]
      rfl rfl rfl rfl rfl rfl).2.2.2⟩

/-- C7: For a URL with a valid lock entry whose named artifact exists
and hashes to exactly the recorded `sha512`, `loadFormatterFromUrl`
decodes the cached bytes into a formatter, stores it in `#formatters`,
and returns it; the environment is untouched (no network access, no
write), the trace holds only the artifact read, and the lock object is
unchanged. -/
theorem claim7_verified_cache_hit (hashFn : List Nat → String) (env : Env)
    (st : ManagerState) (url : String) (e : Json) (fn cachedHash : String)
    (buffer : List Nat)
    (hform : lookupKV st.formatters url = none)
    (hlock : lookupKV st.lockObject url = some e)
    (hdata : entryData e = some (fn, cachedHash))
    (hfile : readFileFs env (_resolve st.cacheDir fn) = FileState.present buffer)
    (hmatch : (hashFn buffer == cachedHash) = true) :
    loadFormatterFromUrl hashFn env st url = Except.ok
      { formatter := createFromBuffer buffer
        state := { st with formatters := insertKV st.formatters url (createFromBuffer buffer) }
        env := env
        trace := [Effect.readFile (_resolve st.cacheDir fn)] }
    ∧ List.filter Effect.isFetched [Effect.readFile (_resolve st.cacheDir fn)] = [] := by
  refine ⟨?_, by simp [Effect.isFetched, List.filter]⟩
  simp only [loadFormatterFromUrl, hform, hlock, Option.bind, hdata, consultLock,
    hfile, readAndVerify, hmatch, if_true]

/-- C7 witness: the verified cache hit evaluated on the concrete C6/C7
fixture (intact bytes `[3]`, matching recorded hash). -/
theorem claim7_witness :
    (testHash [3] == testHash [3]) = true
    ∧ loadFormatterFromUrl testHash c7Env c7St demoUrl = Except.ok
        { formatter := createFromBuffer [3]
          state := { c7St with formatters := insertKV c7St.formatters demoUrl (createFromBuffer [3]) }
          env := c7Env
          trace := [Effect.readFile (_resolve c7St.cacheDir "p.wasm")] } :=
  ⟨rfl, (claim7_verified_cache_hit testHash c7Env c7St demoUrl
      (lockEntryJson "p.wasm" (testHash [3])) "p.wasm" (testHash [3]) [3]
      rfl rfl rfl rfl rfl).1⟩

/-- C6: A second sequential `loadFormatterFromUrl` call for the same URL
returns the identical in-memory formatter the first successful call
produced, leaves state and environment untouched, and performs no
filesystem or network I/O (its trace is empty). -/
theorem claim6_second_call_cached (hashFn : List Nat → String) (env : Env)
    (st : ManagerState) (url : String) (out : LoadOutcome)
    (h : loadFormatterFromUrl hashFn env st url = Except.ok out) :
    loadFormatterFromUrl hashFn out.env out.state url = Except.ok
      { formatter := out.formatter, state := out.state, env := out.env, trace := [] } := by
  have hreg := loadFormatterFromUrl_registers hashFn env st url out h
  simp only [loadFormatterFromUrl, hreg]

/-- C6 witness: the second call evaluated after a concrete first call (a
verified cache hit on the C6/C7 fixture). -/
theorem claim6_witness :
    loadFormatterFromUrl testHash c6Out.env c6Out.state demoUrl = Except.ok
      { formatter := c6Out.formatter, state := c6Out.state, env := c6Out.env, trace := [] } :=
  claim6_second_call_cached testHash c7Env c7St demoUrl c6Out rfl

/-- C8: After `cleanCacheDir` runs, every entry remaining directly in
the cache directory either is the manifest file (possible only when the
lock file is retained) or has a base name equal to some lock entry's
`fileName`; and no directory entry named by a lock entry is removed. -/
theorem claim8_reap_invariant (removeLockFile : Bool) (lockObject : List (String × Json))
    (dirEntries : List String) :
    (∀ n ∈ cleanCacheDir removeLockFile lockObject dirEntries,
        (removeLockFile = false ∧ basename n = LOCK_FILE_NAME)
        ∨ ∃ kv ∈ lockObject, entryFileNameStr kv.2 = some (basename n))
    ∧ (∀ n ∈ dirEntries,
        (∃ kv ∈ lockObject, entryFileNameStr kv.2 = some (basename n)) →
        n ∈ cleanCacheDir removeLockFile lockObject dirEntries) := by
  constructor
  · intro n hn
    simp only [cleanCacheDir, List.mem_filter, decide_eq_true_eq, List.mem_append,
      List.mem_filterMap] at hn
    obtain ⟨-, hkeep | ⟨kv, hkv, hfn⟩⟩ := hn
    · left
      by_cases hrm : removeLockFile = true
      · rw [hrm] at hkeep; simp at hkeep
      · have hrm' : removeLockFile = false := by simpa using hrm
        rw [hrm'] at hkeep
        simp at hkeep
        exact ⟨hrm', hkeep⟩
    · exact Or.inr ⟨kv, hkv, hfn⟩
  · intro n hn hex
    obtain ⟨kv, hkv, hfn⟩ := hex
    simp only [cleanCacheDir, List.mem_filter, decide_eq_true_eq, List.mem_append,
      List.mem_filterMap]
    exact ⟨hn, Or.inr ⟨kv, hkv, hfn⟩⟩

/-- C8 witness: on a concrete directory `["a.wasm", "junk.txt"]` and a
manifest naming `a.wasm`, the reap keeps `a.wasm`. -/
theorem claim8_witness :
    "a.wasm" ∈ cleanCacheDir false [("u", lockEntryJson "a.wasm" "h1")]
        ["a.wasm", "junk.txt"] :=
  (claim8_reap_invariant false [("u", lockEntryJson "a.wasm" "h1")]
      ["a.wasm", "junk.txt"]).2 "a.wasm" (List.Mem.head _)
    ⟨("u", lockEntryJson "a.wasm" "h1"), List.Mem.head _, rfl⟩

/-- C9, evaluated against the code: the catalog list-fetch does
propagate failures (network error, and non-success response via the
`response.ok` check), and a rejected artifact fetch propagates; but a
non-success artifact response does NOT propagate — `loadFormatterFromUrl`
decodes the 404 body `[9, 9]` into a formatter and records that body's
hash in the lock entry, contradicting the claim (and the spec's
`FetchFailure must propagate`); the code's own `TODO` marks the gap. -/
theorem claim9_code_eval :
    catalogFetchCheck (FetchOutcome.response false [1]) = Except.error JsError.catalogErr
    ∧ catalogFetchCheck FetchOutcome.networkError = Except.error JsError.fetchErr
    ∧ loadFormatterFromUrl testHash c9EnvErr c9St demoUrl = Except.error JsError.fetchErr
    ∧ loadFormatterFromUrl testHash c9Env c9St demoUrl = Except.ok
        { formatter := createFromBuffer [9, 9]
          state :=
            { cacheDir := "c"
              lockObject := [(demoUrl, lockEntryJson "p.wasm" (testHash [9, 9]))]
              formatters := [(demoUrl, createFromBuffer [9, 9])] }
          env := { c9Env with files := [(_resolve "c" "p.wasm", FileState.present [9, 9])] }
          trace := [Effect.fetched demoUrl, Effect.decoded [9, 9],
              Effect.madeDir "c", Effect.wroteFile (_resolve "c" "p.wasm") [9, 9]] } :=
  ⟨rfl, rfl, rfl, rfl⟩

/-- C10: `_urlToFileName` is not injective — `urlA` and `urlB` differ in
host, directory and query string yet both derive `plugin.wasm` — and
resolving both URLs leaves two lock entries referencing the same cache
file, whose contents after the second resolution are the second URL's
bytes `[2]` (the later fetch overwrote the earlier artifact). -/
theorem claim10_filename_collision :
    urlA ≠ urlB
    ∧ _urlToFileName urlA = "plugin.wasm"
    ∧ _urlToFileName urlB = "plugin.wasm"
    ∧ ∃ out1 out2,
        loadFormatterFromUrl testHash c10Env c10St urlA = Except.ok out1
        ∧ loadFormatterFromUrl testHash out1.env out1.state urlB = Except.ok out2
        ∧ lookupKV out2.state.lockObject urlA
            = some (lockEntryJson "plugin.wasm" (testHash [1]))
        ∧ lookupKV out2.state.lockObject urlB
            = some (lockEntryJson "plugin.wasm" (testHash [2]))
        ∧ readFileFs out2.env (_resolve "c" "plugin.wasm") = FileState.present [2] := by
  refine ⟨by decide, rfl, rfl, ?_⟩
  exact ⟨_, _, rfl, rfl, rfl, rfl, rfl⟩

/-- C3 as amended: `_getLockObject` never propagates any error to its
caller — every input (including the permission-error case) produces an
`Except.ok` result, with the empty manifest `{}` whenever the read,
parse or validation failed. -/
theorem claim3_amended_no_propagation :
    _getLockObject ReadResult.ioFailure = Except.ok (Json.obj [])
    ∧ _getLockObject ReadResult.notFound = Except.ok (Json.obj [])
    ∧ ∀ r : ReadResult, ∃ j, _getLockObject r = Except.ok j := by
  refine ⟨rfl, rfl, ?_⟩
  intro r
  unfold _getLockObject
  cases hres : _readAndValidate r with
  | ok j => exact ⟨j, rfl⟩
  | error e => exact ⟨Json.obj [], rfl⟩

end Dprint
